import Mathlib

/-!
Verification of the MSSQL MCP server core (connection/credential lifecycle
manager, tool registry, dual-transport dispatch, HTTP bridge).

The definitions below are a shallow embedding of the TypeScript entry module
(`index.ts` of the Node server): module-level globals become an explicit
`ConnState`, `async` network calls become oracle values supplied as inputs,
timestamps are naturals (milliseconds), and observable side effects (token
acquisition, pool close, pool connect) are recorded in an event trace.
-/

namespace Mssql

instance {α β : Type} [DecidableEq α] [DecidableEq β] :
    DecidableEq (Except α β) := fun a b =>
  match a, b with
  | .ok x, .ok y =>
    if h : x = y then isTrue (h ▸ rfl) else isFalse fun c => h (Except.ok.inj c)
  | .error x, .error y =>
    if h : x = y then isTrue (h ▸ rfl) else isFalse fun c => h (Except.error.inj c)
  | .ok _, .error _ => isFalse fun c => Except.noConfusion c
  | .error _, .ok _ => isFalse fun c => Except.noConfusion c

/-! JS string primitives (`toLowerCase`, `trim`, `split(',')`, `slice`,
`startsWith`), implemented by structural recursion over the character list
so that concrete executions reduce. -/

/-- `s.toLowerCase()`. -/
def lowerString (s : String) : String := String.mk (s.data.map Char.toLower)

/-- The characters removed by `String.prototype.trim`. -/
def isWsChar (c : Char) : Bool := c == ' ' || c == '\t' || c == '\n' || c == '\r'

/-- Trim a character list at both ends. -/
def trimChars (l : List Char) : List Char :=
  ((l.dropWhile isWsChar).reverse.dropWhile isWsChar).reverse

/-- `s.trim()`. -/
def trimString (s : String) : String := String.mk (trimChars s.data)

/-- Helper for `split(',')`: accumulate the current (reversed) segment. -/
def splitCommaAux : List Char → List Char → List String
  | [], acc => [String.mk acc.reverse]
  | c :: rest, acc =>
    if c = ',' then String.mk acc.reverse :: splitCommaAux rest []
    else splitCommaAux rest (c :: acc)

/-- `s.split(',')`. -/
def splitComma (s : String) : List String := splitCommaAux s.data []

/-- `s.slice(n)`. -/
def sliceFrom (s : String) (n : Nat) : String := String.mk (s.data.drop n)

/-- `s.startsWith(p)`. -/
def startsWithStr (p s : String) : Bool := p.data.isPrefixOf s.data

/-- JS truthiness for an optional environment string: `undefined` and the
empty string are both "absent" (`!s` is true for `""`). -/
def envStr (v : Option String) : Option String :=
  match v with
  | some s => if s = "" then none else some s
  | none => none

/-- Process environment, read once at startup (the module reads
`process.env.*` directly; boolean fields stand for the source's
`=== "true"` / `?.toLowerCase() === 'true'` comparisons on the raw string). -/
structure Env where
  azureClientId : Option String
  azureClientSecret : Option String
  azureTenantId : Option String
  serverName : String
  databaseName : String
  /-- `PREFERRED_SQL_AUTH` (raw string; `'access-token'` when unset). -/
  preferredSqlAuth : Option String
  /-- `DISABLE_AAD_FALLBACK?.toLowerCase() === 'true'`. -/
  disableAadFallback : Bool
  /-- `READONLY === "true"`. -/
  readonly : Bool
  /-- `TRUST_SERVER_CERTIFICATE?.toLowerCase() === 'true'`. -/
  trustServerCertificate : Bool
  /-- `CONNECTION_TIMEOUT` parsed as seconds, `none` when unset (default 30). -/
  connectionTimeoutSec : Option Nat
  mcpApiKey : Option String
  mcpApiKeys : Option String
deriving DecidableEq

/-- `(process.env.PREFERRED_SQL_AUTH || 'access-token').toLowerCase()`. -/
def authModeOf (env : Env) : String :=
  lowerString (env.preferredSqlAuth.getD "access-token")

/-- Whether the configured primary auth mode is `sp-secret`. -/
def usingSecretPrimary (env : Env) : Bool :=
  authModeOf env == "sp-secret"

/-- Result of `credential.getToken(...)`: the token string and the optional
`expiresOnTimestamp` (milliseconds). -/
structure TokenResult where
  token : String
  expiresOnTimestamp : Option Nat
deriving DecidableEq

/-- Errors surfaced by the connection path. Driver/connect errors carry an
opaque payload so that "propagates the original error unchanged" is a
statement about equality of error values. -/
inductive SqlErr
  | configError (msg : String)
  | authError (msg : String)
  | connectError (msg : String)
deriving DecidableEq

/-- The two `authentication` blocks placed into an `sql.config`. -/
inductive AuthKind
  | accessTokenAuth (token : String)
  | spSecretAuth (clientId clientSecret tenantId : String)
deriving DecidableEq

/-- The `sql.config` object built by `createSqlConfig` (and by the fallback
branch of `ensureSqlConnection`). -/
structure SqlConfig where
  server : String
  database : String
  port : Nat
  encrypt : Bool
  trustServerCertificate : Bool
  enableArithAbort : Bool
  connectionTimeoutMs : Nat
  authentication : AuthKind
deriving DecidableEq

/-- Observable effects of the connection path, in execution order. -/
inductive Event
  | tokenAcquire
  | poolClose (id : Nat)
  | poolConnect (auth : AuthKind) (ok : Bool)
deriving DecidableEq

/-- Return value of `createSqlConfig`. -/
structure ConfigResult where
  config : SqlConfig
  token : String
  expiresOn : Nat
deriving DecidableEq

/-- `createSqlConfig()`: checks the service-principal env vars, acquires a
token from the Credential Provider (the `acquire` oracle stands for
`credential.getToken('https://database.windows.net/.default')`, which is
invoked unconditionally, in both auth modes), then builds the config whose
`authentication` block depends on `PREFERRED_SQL_AUTH`. `expiresOn` defaults
to now + 30 minutes when the provider reports no expiry. -/
def createSqlConfig (env : Env) (now : Nat)
    (acquire : Except SqlErr TokenResult) :
    Except SqlErr ConfigResult × List Event :=
  match envStr env.azureClientId, envStr env.azureClientSecret,
        envStr env.azureTenantId with
  | some cid, some csec, some tid =>
    match acquire with
    | .error e => (.error e, [Event.tokenAcquire])
    | .ok tr =>
      let timeoutSec := env.connectionTimeoutSec.getD 30
      let auth := if authModeOf env == "sp-secret"
        then AuthKind.spSecretAuth cid csec tid
        else AuthKind.accessTokenAuth tr.token
      let cfg : SqlConfig :=
        { server := env.serverName
          database := env.databaseName
          port := 1433
          encrypt := true
          trustServerCertificate := env.trustServerCertificate
          enableArithAbort := true
          connectionTimeoutMs := timeoutSec * 1000
          authentication := auth }
      (.ok { config := cfg
             token := tr.token
             expiresOn := tr.expiresOnTimestamp.getD (now + 30 * 60 * 1000) },
       [Event.tokenAcquire])
  | _, _, _ =>
    (.error (SqlErr.configError
      "Missing AZURE_CLIENT_ID, AZURE_CLIENT_SECRET, or AZURE_TENANT_ID environment variables."),
     [])

/-- A handle to an `sql.ConnectionPool`, with its `connected` flag. -/
structure PoolHandle where
  id : Nat
  connected : Bool
deriving DecidableEq

/-- The module-level globals: `globalSqlPool`, `globalAccessToken`,
`globalTokenExpiresOn`, `firstSuccessfulDbCheck`. -/
structure ConnState where
  globalSqlPool : Option PoolHandle
  globalAccessToken : Option String
  globalTokenExpiresOn : Option Nat
  firstSuccessfulDbCheck : Bool
deriving DecidableEq

/-- `markReady()`: one-way latch on `firstSuccessfulDbCheck`. -/
def markReady (s : ConnState) : ConnState :=
  if s.firstSuccessfulDbCheck then s else { s with firstSuccessfulDbCheck := true }

/-- The fast-path guard of `ensureSqlConnection`: pool present and connected,
a (truthy, hence non-empty) cached token, and an expiry strictly beyond
now + 2 minutes. -/
def tokenFresh (s : ConnState) (now : Nat) : Bool :=
  match s.globalSqlPool, s.globalAccessToken, s.globalTokenExpiresOn with
  | some p, some tok, some exp =>
      p.connected && !(tok == "") && decide (exp > now + 2 * 60 * 1000)
  | _, _, _ => false

/-- Network outcomes for one pass through the reconnect path: the token
acquisition and the primary/fallback `sql.connect` attempts (a success
yields the id of the freshly created pool). -/
structure ConnOracle where
  acquire : Except SqlErr TokenResult
  primary : Except SqlErr Nat
  fallback : Except SqlErr Nat

/-- The reconnect path of `ensureSqlConnection` (everything after the
fast-path guard): build a config (acquiring a token), cache the token and
expiry, close the old pool if connected, attempt the primary connect, and on
failure fall back once to `service-principal-secret` unless fallback is
disabled, the primary already was `sp-secret`, or the credentials are absent;
a failed fallback rethrows the original primary error. The optional
`DIAG_TRY_MASTER` block is log-only diagnostics against the `master`
database and touches none of the globals, so it is not modelled. -/
def ensureReconnect (env : Env) (now : Nat) (o : ConnOracle) (s : ConnState) :
    Except SqlErr Unit × ConnState × List Event :=
  match createSqlConfig env now o.acquire with
  | (.error e, evs) => (.error e, s, evs)
  | (.ok r, evs) =>
    let s1 := { s with globalAccessToken := some r.token
                       globalTokenExpiresOn := some r.expiresOn }
    let closed : ConnState × List Event :=
      match s1.globalSqlPool with
      | some p =>
        if p.connected then
          ({ s1 with globalSqlPool := some { p with connected := false } },
           [Event.poolClose p.id])
        else (s1, [])
      | none => (s1, [])
    let s2 := closed.1
    let evs2 := evs ++ closed.2
    match o.primary with
    | .ok pid =>
      (.ok (), markReady { s2 with globalSqlPool := some ⟨pid, true⟩ },
       evs2 ++ [Event.poolConnect r.config.authentication true])
    | .error e =>
      let evs3 := evs2 ++ [Event.poolConnect r.config.authentication false]
      if env.disableAadFallback then (.error e, s2, evs3)
      else
        match envStr env.azureClientId, envStr env.azureClientSecret,
              envStr env.azureTenantId with
        | some cid, some csec, some tid =>
          if usingSecretPrimary env then (.error e, s2, evs3)
          else
            match o.fallback with
            | .ok pid =>
              (.ok (), markReady { s2 with globalSqlPool := some ⟨pid, true⟩ },
               evs3 ++ [Event.poolConnect (AuthKind.spSecretAuth cid csec tid) true])
            | .error _ =>
              (.error e, s2,
               evs3 ++ [Event.poolConnect (AuthKind.spSecretAuth cid csec tid) false])
        | _, _, _ => (.error e, s2, evs3)

/-- `ensureSqlConnection()`: return immediately when the pool is connected
and the cached token is still valid beyond the 2-minute buffer; otherwise
run the reconnect path. -/
def ensureSqlConnection (env : Env) (now : Nat) (o : ConnOracle) (s : ConnState) :
    Except SqlErr Unit × ConnState × List Event :=
  if tokenFresh s now then (.ok (), s, [])
  else ensureReconnect env now o s

/-! ## Tool registry and dispatch -/

/-- The eleven tool singletons instantiated by the entry module. -/
inductive ToolId
  | insertData | readData | updateData | createTable | createIndex
  | listTable | listViews | dropTable | describeTable
  | diagnoseConnection | listExternalUsers
deriving DecidableEq

/-- The `name` field of each tool. `list_table`, `list_views`,
`describe_table`, `diagnose_connection` and `list_external_users` are read
off the tool sources. Modelled from the spec: the source files of the
insert/read/update/create-table/create-index/drop-table tools are not in the
snapshot (only imported by the entry module); the spec identifies them as
the insert/update/create/drop/index data-manipulation tools, so their names
follow the snake-case convention of the tools that are present. -/
def toolName : ToolId → String
  | .insertData => "insert_data"
  | .readData => "read_data"
  | .updateData => "update_data"
  | .createTable => "create_table"
  | .createIndex => "create_index"
  | .listTable => "list_table"
  | .listViews => "list_views"
  | .dropTable => "drop_table"
  | .describeTable => "describe_table"
  | .diagnoseConnection => "diagnose_connection"
  | .listExternalUsers => "list_external_users"

/-- The read-only tool list (used by `ListToolsRequestSchema` and by the
HTTP bridge's `toolMap` when `READONLY === "true"`). -/
def readOnlyTools : List ToolId :=
  [.listTable, .listViews, .readData, .describeTable,
   .diagnoseConnection, .listExternalUsers]

/-- The full (read-write) tool list. -/
def fullTools : List ToolId :=
  [.insertData, .readData, .describeTable, .updateData, .createTable,
   .createIndex, .dropTable, .listTable, .listViews,
   .diagnoseConnection, .listExternalUsers]

/-- The mode-selected registry: `listTools()` and the HTTP `toolMap` both
use this selection. -/
def listTools (env : Env) : List ToolId :=
  if env.readonly then readOnlyTools else fullTools

/-- Tools whose body mutates the database (insert/update/create/drop/index). -/
def mutatingTools : List ToolId :=
  [.insertData, .updateData, .createTable, .createIndex, .dropTable]

/-- The cases of the `CallToolRequestSchema` handler's `switch`, in source
order. Note: the `switch` covers every tool unconditionally — it does not
consult the `isReadOnly` gate. -/
def stdioSwitch : List ToolId :=
  [.insertData, .readData, .updateData, .createTable, .createIndex,
   .listTable, .listViews, .dropTable, .describeTable,
   .diagnoseConnection, .listExternalUsers]

/-- Resolve a requested name against the stdio `switch` cases. -/
def stdioLookup (name : String) : Option ToolId :=
  stdioSwitch.find? (fun t => toolName t == name)

/-- Request arguments, as far as the dispatcher inspects them (only the
`describe_table` case checks a field — `tableName` must be a string). -/
structure CallArgs where
  tableName : Option String
deriving DecidableEq

/-- Outcome of one stdio `callTool` dispatch: whether the returned envelope
is error-flagged, whether `ensureSqlConnection` was invoked (tools are
wrapped by `wrapToolRun`), and which tool body (if any) actually ran. -/
structure DispatchResult where
  isError : Bool
  ensureCalled : Bool
  executed : Option ToolId
deriving DecidableEq

/-- The `CallToolRequestSchema` handler. An unknown name returns the
error-flagged `Unknown tool` envelope without touching the connection; the
`describe_table` case validates `tableName` before running; every matched
tool runs through its `wrapToolRun` wrapper, which calls
`ensureSqlConnection` first (`ensureOk` is that call's outcome — a failure
is caught and returned as an error envelope without running the body).
There is no read-only check anywhere on this path. -/
def callToolStdio (ensureOk : Bool) (name : String) (args : Option CallArgs) :
    DispatchResult :=
  match stdioLookup name with
  | none => ⟨true, false, none⟩
  | some t =>
    if t = ToolId.describeTable then
      match args with
      | none => ⟨true, false, none⟩
      | some a =>
        match a.tableName with
        | none => ⟨true, false, none⟩
        | some _ => if ensureOk then ⟨false, true, some t⟩ else ⟨true, true, none⟩
    else if ensureOk then ⟨false, true, some t⟩ else ⟨true, true, none⟩

/-! ## HTTP bridge -/

/-- `MCP_API_KEYS` (comma-separated, trimmed, empties dropped) wins over a
single `MCP_API_KEY`; both absent (or empty, by JS truthiness) means no
keys. -/
def parseApiKeys (env : Env) : List String :=
  match envStr env.mcpApiKeys with
  | some s => ((splitComma s).map trimString).filter (fun k => k.length > 0)
  | none =>
    match envStr env.mcpApiKey with
    | some k => [trimString k]
    | none => []

/-- The parsed `name`/`arguments` body of `POST /call`. -/
structure HttpJsonBody where
  name : Option String
  arguments : Option CallArgs
deriving DecidableEq

/-- An incoming HTTP request, as far as the bridge inspects it. `body` is
the parsed JSON body of a `POST /call` (`none` stands for an empty body,
which parses to the empty object; malformed JSON, which yields a 500, is
not modelled). -/
structure HttpRequest where
  url : String
  method : String
  authorization : Option String
  xApiKey : Option String
  body : Option HttpJsonBody
deriving DecidableEq

/-- The key the request presents: a `Bearer` Authorization header (checked
case-insensitively, sliced after the 7-character prefix, trimmed) takes
precedence; otherwise the raw `X-API-Key` header, trimmed. -/
def providedKey (req : HttpRequest) : Option String :=
  match req.authorization with
  | some a =>
    if startsWithStr "bearer " (lowerString a) then some (trimString (sliceFrom a 7))
    else req.xApiKey.map trimString
  | none => req.xApiKey.map trimString

/-- The JSON bodies the bridge can serialize (`JSON.stringify` of the
corresponding object literals in the source). -/
inductive RespBody
  | empty
  | health
  | readyStatus (ready : Bool)
  | unauthorizedBody
  | toolList (names : List String)
  | missingName
  | unknownTool (name : String)
  | callResult (t : ToolId)
  | serverError
  | notFound
deriving DecidableEq

/-- The `error` field of a serialized body, when present. -/
def RespBody.errorText : RespBody → Option String
  | .unauthorizedBody => some "Unauthorized"
  | .missingName => some "Missing name field"
  | .unknownTool nm => some ("Unknown tool: " ++ nm)
  | .serverError => some "Internal error"
  | .notFound => some "Not found"
  | _ => none

/-- The `ready` field of a serialized body, when present. -/
def RespBody.readyFlag : RespBody → Option Bool
  | .readyStatus r => some r
  | _ => none

/-- The `status` field of a serialized body, when present. -/
def RespBody.statusText : RespBody → Option String
  | .health => some "ok"
  | .readyStatus r => some (if r then "ready" else "starting")
  | _ => none

/-- An HTTP response: status code and serialized body. -/
structure HttpResponse where
  status : Nat
  body : RespBody
deriving DecidableEq

/-- Connection-layer side effects of handling one HTTP request. -/
structure HttpEffects where
  ensureCalled : Bool
  executed : Option ToolId
deriving DecidableEq

/-- The HTTP bridge request handler: CORS preflight, then the
unauthenticated `/health` and `/ready` endpoints, then the optional API-key
gate for every remaining endpoint, then `/tools`, `/call` (missing `name` →
400; name not in the mode-selected `toolMap` → 404, without touching the
connection; otherwise `ensureSqlConnection` then the tool body), else 404.
`ready` is the current `firstSuccessfulDbCheck`; `ensureOk` is the outcome
of `ensureSqlConnection` when it is reached (a throw becomes a 500). -/
def handleHttp (env : Env) (ready : Bool) (ensureOk : Bool)
    (req : HttpRequest) : HttpResponse × HttpEffects :=
  let noEff : HttpEffects := ⟨false, none⟩
  if req.method = "OPTIONS" then (⟨204, RespBody.empty⟩, noEff)
  else if req.url = "/health" && req.method = "GET" then
    (⟨200, RespBody.health⟩, noEff)
  else if req.url = "/ready" && req.method = "GET" then
    (⟨if ready then 200 else 503, RespBody.readyStatus ready⟩, noEff)
  else
    let apiKeys := parseApiKeys env
    let authorized :=
      match providedKey req with
      | some k => !(k == "") && apiKeys.contains k
      | none => false
    if !apiKeys.isEmpty && !authorized then
      (⟨401, RespBody.unauthorizedBody⟩, noEff)
    else if req.url = "/tools" && req.method = "GET" then
      (⟨200, RespBody.toolList ((listTools env).map toolName)⟩, noEff)
    else if req.url = "/call" && req.method = "POST" then
      let parsed := req.body.getD ⟨none, none⟩
      match parsed.name with
      | none => (⟨400, RespBody.missingName⟩, noEff)
      | some nm =>
        if nm = "" then (⟨400, RespBody.missingName⟩, noEff)
        else
          match (listTools env).find? (fun t => toolName t == nm) with
          | none => (⟨404, RespBody.unknownTool nm⟩, noEff)
          | some t =>
            if ensureOk then (⟨200, RespBody.callResult t⟩, ⟨true, some t⟩)
            else (⟨500, RespBody.serverError⟩, ⟨true, none⟩)
    else (⟨404, RespBody.notFound⟩, noEff)

/-! ## Interleaved executions of `ensureSqlConnection`

The runtime is single-threaded and cooperative: an in-flight
`ensureSqlConnection` yields control at each `await` (token acquisition,
`pool.close()`, `sql.connect(...)`). The small-step model below cuts the
successful reconnect path at exactly those suspension points; the shared
module globals are read and written directly at each step, as in the
source, which has no in-flight-refresh guard variable at all. -/

/-- Resume points of one in-flight `ensureSqlConnection` invocation.
`start`: about to evaluate the fast-path guard; a stale state then invokes
`credential.getToken` and suspends. `gotToken`: the token resolved; write
the token globals, then either start closing the connected old pool or
start the primary connect. `closing`: `close()` resolved; start the
connect. `connecting`: `sql.connect` resolved; store the new pool and mark
ready. -/
inductive TaskPC
  | start | gotToken | closing | connecting | done
deriving DecidableEq

/-- The successful network outcomes feeding one invocation: the token (and
expiry) its `getToken` returns and the id of the pool its `sql.connect`
creates. -/
structure TaskCfg where
  tok : String
  exp : Nat
  poolId : Nat
deriving DecidableEq

/-- Shared process state plus counters of Credential Provider invocations
and pool creations. -/
structure SysState where
  conn : ConnState
  tokenAcquisitions : Nat
  poolCreations : Nat
deriving DecidableEq

/-- One cooperative step of an in-flight invocation: run from the current
resume point to the next `await` or to completion, reading and writing the
shared globals. -/
def taskStep (now : Nat) (cfg : TaskCfg) (sys : SysState) (pc : TaskPC) :
    SysState × TaskPC :=
  match pc with
  | .start =>
    if tokenFresh sys.conn now then (sys, .done)
    else ({ sys with tokenAcquisitions := sys.tokenAcquisitions + 1 }, .gotToken)
  | .gotToken =>
    let conn1 := { sys.conn with globalAccessToken := some cfg.tok
                                 globalTokenExpiresOn := some cfg.exp }
    let sys1 := { sys with conn := conn1 }
    match conn1.globalSqlPool with
    | some p => if p.connected then (sys1, .closing) else (sys1, .connecting)
    | none => (sys1, .connecting)
  | .closing =>
    let conn1 :=
      match sys.conn.globalSqlPool with
      | some p => { sys.conn with globalSqlPool := some { p with connected := false } }
      | none => sys.conn
    ({ sys with conn := conn1 }, .connecting)
  | .connecting =>
    let conn1 := markReady { sys.conn with globalSqlPool := some ⟨cfg.poolId, true⟩ }
    ({ sys with conn := conn1, poolCreations := sys.poolCreations + 1 }, .done)
  | .done => (sys, .done)

/-- Two overlapping invocations sharing the process state. -/
structure TwoTasks where
  sys : SysState
  pcA : TaskPC
  pcB : TaskPC
deriving DecidableEq

/-- Scheduler step: `false` runs invocation A, `true` runs invocation B. -/
def schedStep (now : Nat) (ca cb : TaskCfg) (st : TwoTasks) (pick : Bool) :
    TwoTasks :=
  if pick then
    let r := taskStep now cb st.sys st.pcB
    { st with sys := r.1, pcB := r.2 }
  else
    let r := taskStep now ca st.sys st.pcA
    { st with sys := r.1, pcA := r.2 }

/-- Run the two invocations under an explicit schedule. -/
def runSched (now : Nat) (ca cb : TaskCfg) (st : TwoTasks) :
    List Bool → TwoTasks
  | [] => st
  | b :: rest => runSched now ca cb (schedStep now ca cb st b) rest

/-- The schedule in which the second invocation begins (and observes the
staleness guard) before the first has completed: strict alternation. -/
def overlapSchedule : List Bool :=
  [false, true, false, true, false, true, false, true]

/-! ## Event classifiers and concrete fixtures -/

/-- Whether an event is a pool connect attempt. -/
def Event.isConnect : Event → Bool
  | .poolConnect _ _ => true
  | _ => false

/-- Whether an event is a connect attempt authenticated with the
service-principal secret (the fallback credential). -/
def Event.isSpConnect : Event → Bool
  | .poolConnect (AuthKind.spSecretAuth _ _ _) _ => true
  | _ => false

/-- Representative environment: service-principal credentials present,
default (access-token) primary mode, fallback enabled, read-write, no API
keys. -/
def specimenEnv : Env :=
  { azureClientId := some "cid", azureClientSecret := some "sec",
    azureTenantId := some "tid", serverName := "srv", databaseName := "db",
    preferredSqlAuth := none, disableAadFallback := false, readonly := false,
    trustServerCertificate := false, connectionTimeoutSec := none,
    mcpApiKey := none, mcpApiKeys := none }

/-- The representative environment with `READONLY=true`. -/
def specimenEnvRO : Env := { specimenEnv with readonly := true }

/-- The representative environment with `PREFERRED_SQL_AUTH=sp-secret`. -/
def specimenEnvSP : Env := { specimenEnv with preferredSqlAuth := some "sp-secret" }

/-- The representative environment with two API keys configured. -/
def specimenEnvKeys : Env := { specimenEnv with mcpApiKeys := some "k1,k2" }

/-- Oracle in which every network operation succeeds. -/
def okOracle : ConnOracle := ⟨.ok ⟨"newtok", some 900000⟩, .ok 7, .ok 8⟩

/-- Oracle in which the primary connect fails and the fallback succeeds. -/
def failPrimaryOracle : ConnOracle :=
  ⟨.ok ⟨"newtok", some 900000⟩, .error (SqlErr.connectError "primary"), .ok 9⟩

/-- Oracle in which both connect attempts fail. -/
def failBothOracle : ConnOracle :=
  ⟨.ok ⟨"newtok", some 900000⟩, .error (SqlErr.connectError "primary"),
   .error (SqlErr.connectError "fallback")⟩

/-- Connected pool with a cached token valid well beyond the buffer
(relative to `now = 0`). -/
def freshState : ConnState := ⟨some ⟨1, true⟩, some "tok", some 1000000, true⟩

/-- Connected pool with a cached token expiring 90 seconds from `now = 0`,
inside the 120-second buffer. -/
def nearExpiryState : ConnState := ⟨some ⟨1, true⟩, some "tok", some 90000, true⟩

/-- The state at process start: no pool, no token, not ready. -/
def emptyState : ConnState := ⟨none, none, none, false⟩

/-! ## Helper lemmas -/

theorem markReady_eq (s : ConnState) :
    markReady s = { s with firstSuccessfulDbCheck := true } := by
  rcases s with ⟨p, t, e, r⟩
  cases r <;> simp [markReady]

theorem dropWhile_idem (p : Char → Bool) (l : List Char) :
    (l.dropWhile p).dropWhile p = l.dropWhile p := by
  induction l with
  | nil => simp
  | cons c l ih =>
    by_cases h : p c
    · simp [List.dropWhile_cons, h, ih]
    · simp [List.dropWhile_cons, h]

theorem dropWhile_eq_self_of_prefix (p : Char → Bool) {t A : List Char}
    (hA : A.dropWhile p = A) (hpre : t <+: A) : t.dropWhile p = t := by
  cases t with
  | nil => simp
  | cons c t2 =>
    obtain ⟨r, hr⟩ := hpre
    rw [← hr, List.cons_append, List.dropWhile_cons] at hA
    by_cases h : p c
    · exfalso
      rw [if_pos h] at hA
      have hlen := List.Sublist.length_le
        (List.IsSuffix.sublist (List.dropWhile_suffix (l := t2 ++ r) p))
      rw [hA] at hlen
      simp at hlen
    · rw [List.dropWhile_cons, if_neg h]

theorem trimChars_prefix_dropWhile (l : List Char) :
    trimChars l <+: l.dropWhile isWsChar := by
  rw [← List.reverse_suffix]
  show (((l.dropWhile isWsChar).reverse.dropWhile isWsChar).reverse).reverse <:+ _
  rw [List.reverse_reverse]
  exact List.dropWhile_suffix _

theorem trimChars_idem (l : List Char) : trimChars (trimChars l) = trimChars l := by
  have hA : (l.dropWhile isWsChar).dropWhile isWsChar = l.dropWhile isWsChar :=
    dropWhile_idem _ _
  have ht : (trimChars l).dropWhile isWsChar = trimChars l :=
    dropWhile_eq_self_of_prefix _ hA (trimChars_prefix_dropWhile l)
  have hrev : (trimChars l).reverse = (l.dropWhile isWsChar).reverse.dropWhile isWsChar := by
    show (((l.dropWhile isWsChar).reverse.dropWhile isWsChar).reverse).reverse = _
    rw [List.reverse_reverse]
  show (((trimChars l).dropWhile isWsChar).reverse.dropWhile isWsChar).reverse = trimChars l
  rw [ht, hrev, dropWhile_idem, ← hrev, List.reverse_reverse]

theorem trimString_idem (s : String) : trimString (trimString s) = trimString s := by
  show String.mk (trimChars (trimChars s.data)) = String.mk (trimChars s.data)
  rw [trimChars_idem]

/-- Every key in the parsed API key set is already trimmed. -/
theorem parseApiKeys_trimmed (env : Env) (k : String) (h : k ∈ parseApiKeys env) :
    trimString k = k := by
  unfold parseApiKeys at h
  cases hks : envStr env.mcpApiKeys with
  | some s =>
    rw [hks] at h
    simp only [List.mem_filter, List.mem_map] at h
    obtain ⟨⟨x, _, hx⟩, _⟩ := h
    rw [← hx, trimString_idem]
  | none =>
    rw [hks] at h
    cases hk : envStr env.mcpApiKey with
    | some k0 =>
      rw [hk] at h
      simp only [List.mem_singleton] at h
      rw [h, trimString_idem]
    | none =>
      rw [hk] at h
      simp at h

/-- A `Bearer` Authorization header presents the trimmed key after the
7-character prefix. -/
theorem providedKey_bearer (u m k : String) (xk : Option String)
    (b : Option HttpJsonBody) :
    providedKey ⟨u, m, some ("Bearer " ++ k), xk, b⟩ = some (trimString k) := by
  have hstart : startsWithStr "bearer " (lowerString ("Bearer " ++ k)) = true := by
    unfold startsWithStr lowerString
    rw [List.isPrefixOf_iff_prefix, String.data_append, List.map_append,
        show "Bearer ".data.map Char.toLower = "bearer ".data from by decide]
    exact List.prefix_append _ _
  have hslice : sliceFrom ("Bearer " ++ k) 7 = k := by
    unfold sliceFrom
    rw [String.data_append, show (7 : Nat) = "Bearer ".data.length from by decide,
        List.drop_left]
  unfold providedKey
  simp only [hstart, if_true, hslice]

/-! ## Claims -/

/-- C1 (counterexample): the claim that overlapping stale invocations of
`ensureSqlConnection()` are serialized (exactly one token acquisition and
one pool creation) is false at a concrete input. Starting from the initial
process state (no pool, no token — stale), two overlapping invocations
interleaved at their `await` points, the second beginning before the first
completes, perform TWO token acquisitions and TWO pool creations; the
source has no in-flight-refresh guard. -/
theorem C1_counterexample :
    tokenFresh emptyState 0 = false ∧
    (runSched 0 ⟨"a", 1000000, 1⟩ ⟨"b", 1000000, 2⟩
        ⟨⟨emptyState, 0, 0⟩, TaskPC.start, TaskPC.start⟩ overlapSchedule).pcA
      = TaskPC.done ∧
    (runSched 0 ⟨"a", 1000000, 1⟩ ⟨"b", 1000000, 2⟩
        ⟨⟨emptyState, 0, 0⟩, TaskPC.start, TaskPC.start⟩ overlapSchedule).pcB
      = TaskPC.done ∧
    (runSched 0 ⟨"a", 1000000, 1⟩ ⟨"b", 1000000, 2⟩
        ⟨⟨emptyState, 0, 0⟩, TaskPC.start, TaskPC.start⟩
        overlapSchedule).sys.tokenAcquisitions = 2 ∧
    (runSched 0 ⟨"a", 1000000, 1⟩ ⟨"b", 1000000, 2⟩
        ⟨⟨emptyState, 0, 0⟩, TaskPC.start, TaskPC.start⟩
        overlapSchedule).sys.poolCreations = 2 ∧
    (2 : Nat) ≠ 1 := by
  decide

/-- C1 (amended): for every pair of overlapping invocations of
`ensureSqlConnection()` in which both observe a stale/expired state before
either completes, the reconnect path is NOT serialized: from any stale
shared state, the alternating interleaving performs two token acquisitions
and two pool creations (one per invocation), both invocations running the
full reconnect path to completion. -/
theorem C1_amended_reconnect_not_serialized (conn : ConnState)
    (now a0 p0 : Nat) (ca cb : TaskCfg) (h : tokenFresh conn now = false) :
    (runSched now ca cb ⟨⟨conn, a0, p0⟩, TaskPC.start, TaskPC.start⟩
        overlapSchedule).sys.tokenAcquisitions = a0 + 2 ∧
    (runSched now ca cb ⟨⟨conn, a0, p0⟩, TaskPC.start, TaskPC.start⟩
        overlapSchedule).sys.poolCreations = p0 + 2 ∧
    (runSched now ca cb ⟨⟨conn, a0, p0⟩, TaskPC.start, TaskPC.start⟩
        overlapSchedule).pcA = TaskPC.done ∧
    (runSched now ca cb ⟨⟨conn, a0, p0⟩, TaskPC.start, TaskPC.start⟩
        overlapSchedule).pcB = TaskPC.done := by
  rcases conn with ⟨pool, tok, exp, rdy⟩
  rcases pool with _ | ⟨pid, pconn⟩
  · simp [runSched, overlapSchedule, schedStep, taskStep, h, markReady_eq]
  · rcases pconn <;>
      simp [runSched, overlapSchedule, schedStep, taskStep, h, markReady_eq]

/-- Witness: the amended C1 theorem applied at the initial process state. -/
theorem C1_amended_reconnect_not_serialized_witness :
    tokenFresh emptyState 5 = false ∧
    (runSched 5 ⟨"ta", 999, 3⟩ ⟨"tb", 999, 4⟩
        ⟨⟨emptyState, 0, 0⟩, TaskPC.start, TaskPC.start⟩
        overlapSchedule).sys.tokenAcquisitions = 0 + 2 :=
  ⟨by decide,
   (C1_amended_reconnect_not_serialized emptyState 5 0 0 ⟨"ta", 999, 3⟩
      ⟨"tb", 999, 4⟩ (by decide)).1⟩

/-- C2 (code bug, evaluated at the failing input): with `READONLY=true`,
`listTools()` indeed exposes no mutating tool, and the HTTP bridge rejects
`insert_data` with a 404 Unknown-tool response (already not the claimed
`Forbidden`) without executing anything — but the line-RPC
`CallToolRequestSchema` handler, whose `switch` has no read-only check,
EXECUTES the insert tool body and returns its result in a non-error
envelope instead of a `Forbidden` error. -/
theorem C2_readonly_not_enforced_on_call :
    (∀ t ∈ listTools specimenEnvRO, t ∉ mutatingTools) ∧
    callToolStdio true "insert_data" none =
      ⟨false, true, some ToolId.insertData⟩ ∧
    handleHttp specimenEnvRO false true
        ⟨"/call", "POST", none, none, some ⟨some "insert_data", none⟩⟩ =
      (⟨404, RespBody.unknownTool "insert_data"⟩, ⟨false, none⟩) := by
  decide

/-- Shape of the state after a reconnect whose token acquisition and
primary connect both succeed. -/
theorem ensureReconnect_primary_ok_state (env : Env) (now : Nat)
    (o : ConnOracle) (s : ConnState) (cid csec tid : String)
    (tr : TokenResult) (pid : Nat)
    (hcid : envStr env.azureClientId = some cid)
    (hcsec : envStr env.azureClientSecret = some csec)
    (htid : envStr env.azureTenantId = some tid)
    (hacq : o.acquire = .ok tr) (hprim : o.primary = .ok pid) :
    (ensureReconnect env now o s).1 = .ok () ∧
    (ensureReconnect env now o s).2.1 =
      { globalSqlPool := some ⟨pid, true⟩
        globalAccessToken := some tr.token
        globalTokenExpiresOn :=
          some (tr.expiresOnTimestamp.getD (now + 30 * 60 * 1000))
        firstSuccessfulDbCheck := true } := by
  rcases s with ⟨pool, tok, exp, rdy⟩
  rcases pool with _ | ⟨qid, qconn⟩
  · simp [ensureReconnect, createSqlConfig, hcid, hcsec, htid, hacq, hprim,
      markReady_eq]
  · rcases qconn <;>
      simp [ensureReconnect, createSqlConfig, hcid, hcsec, htid, hacq, hprim,
        markReady_eq]

/-- The fast path: a fresh state makes `ensureSqlConnection` a no-op. -/
theorem ensure_fast_path (env : Env) (now : Nat) (o : ConnOracle)
    (t : ConnState) (h : tokenFresh t now = true) :
    ensureSqlConnection env now o t = (.ok (), t, []) := by
  simp [ensureSqlConnection, h]

/-- C3: the cached fast path and the 2-minute buffer. (1) Whenever a
connected pool, a cached token and an expiry beyond now + 120 s are present,
`ensureSqlConnection()` returns immediately: no token acquisition, no pool
event, state unchanged. (2) A connected pool with a cached token expiring
90 s from now fails the guard (90 s is inside the 120 s buffer) and the
call takes the reconnect path. (3) After a successful reconnect whose
fresh token is valid beyond the buffer, the guard holds again, so an
immediately successive call — under any oracle — performs no further I/O. -/
theorem C3_fast_path_and_buffer (env : Env) (now : Nat) (o : ConnOracle)
    (s : ConnState) :
    (tokenFresh s now = true →
      ensureSqlConnection env now o s = (.ok (), s, [])) ∧
    (∀ p tok, s.globalSqlPool = some p → s.globalAccessToken = some tok →
      s.globalTokenExpiresOn = some (now + 90 * 1000) →
      tokenFresh s now = false ∧
      ensureSqlConnection env now o s = ensureReconnect env now o s) ∧
    (∀ cid csec tid tr pid e,
      tokenFresh s now = false →
      envStr env.azureClientId = some cid →
      envStr env.azureClientSecret = some csec →
      envStr env.azureTenantId = some tid →
      o.acquire = .ok tr → tr.token ≠ "" →
      tr.expiresOnTimestamp = some e → e > now + 2 * 60 * 1000 →
      o.primary = .ok pid →
      tokenFresh (ensureSqlConnection env now o s).2.1 now = true ∧
      ∀ o2 : ConnOracle,
        ensureSqlConnection env now o2 (ensureSqlConnection env now o s).2.1
          = (.ok (), (ensureSqlConnection env now o s).2.1, [])) := by
  refine ⟨?_, ?_, ?_⟩
  · intro h
    simp [ensureSqlConnection, h]
  · intro p tok hp htok hexp
    have hlt : ¬ (now + 90 * 1000 > now + 2 * 60 * 1000) := by omega
    have hfresh : tokenFresh s now = false := by
      simp [tokenFresh, hp, htok, hexp, hlt]
    exact ⟨hfresh, by simp [ensureSqlConnection, hfresh]⟩
  · intro cid csec tid tr pid e h hcid hcsec htid hacq htokne hexp he hprim
    have hshape :=
      ensureReconnect_primary_ok_state env now o s cid csec tid tr pid
        hcid hcsec htid hacq hprim
    have hrun : (ensureSqlConnection env now o s).2.1 =
        (ensureReconnect env now o s).2.1 := by
      simp [ensureSqlConnection, h]
    have hfresh2 : tokenFresh (ensureSqlConnection env now o s).2.1 now = true := by
      rw [hrun, hshape.2]
      simp [tokenFresh, hexp, htokne, he]
    exact ⟨hfresh2, fun o2 => ensure_fast_path env now o2 _ hfresh2⟩

/-- Witness: C3 applied at a fresh state, at a state 90 s from expiry, and
to the state produced by a successful reconnect. -/
theorem C3_fast_path_and_buffer_witness :
    ensureSqlConnection specimenEnv 0 okOracle freshState
      = (.ok (), freshState, []) ∧
    tokenFresh nearExpiryState 0 = false ∧
    tokenFresh (ensureSqlConnection specimenEnv 0 okOracle nearExpiryState).2.1 0
      = true :=
  ⟨(C3_fast_path_and_buffer specimenEnv 0 okOracle freshState).1 (by decide),
   ((C3_fast_path_and_buffer specimenEnv 0 okOracle nearExpiryState).2.1
      ⟨1, true⟩ "tok" rfl rfl (by decide)).1,
   ((C3_fast_path_and_buffer specimenEnv 0 okOracle nearExpiryState).2.2
      "cid" "sec" "tid" ⟨"newtok", some 900000⟩ 7 900000 (by decide) (by decide)
      (by decide) (by decide) rfl (by decide) rfl (by decide) rfl).1⟩

/-- C4: failover behavior on primary connect failure, with the primary
mode `access-token` and service-principal credentials present. With
fallback disabled, the original primary error propagates and no
service-principal-secret connect is attempted. With fallback enabled,
exactly one immediate `service-principal-secret` retry occurs: if it
succeeds the call returns ok with the fallback pool stored (the primary
error is not propagated); if it fails, the ORIGINAL primary error
propagates (not the fallback error). -/
theorem C4_single_fallback (env : Env) (now : Nat) (o : ConnOracle)
    (s : ConnState) (cid csec tid : String) (tr : TokenResult) (e : SqlErr)
    (hfresh : tokenFresh s now = false)
    (hcid : envStr env.azureClientId = some cid)
    (hcsec : envStr env.azureClientSecret = some csec)
    (htid : envStr env.azureTenantId = some tid)
    (hmode : usingSecretPrimary env = false)
    (hacq : o.acquire = .ok tr)
    (hprim : o.primary = .error e) :
    (env.disableAadFallback = true →
      (ensureSqlConnection env now o s).1 = .error e ∧
      (ensureSqlConnection env now o s).2.2.filter Event.isSpConnect = []) ∧
    (env.disableAadFallback = false →
      ∀ pid, o.fallback = .ok pid →
        (ensureSqlConnection env now o s).1 = .ok () ∧
        (ensureSqlConnection env now o s).2.1.globalSqlPool = some ⟨pid, true⟩ ∧
        (ensureSqlConnection env now o s).2.2.filter Event.isSpConnect =
          [Event.poolConnect (AuthKind.spSecretAuth cid csec tid) true]) ∧
    (env.disableAadFallback = false →
      ∀ e2, o.fallback = .error e2 →
        (ensureSqlConnection env now o s).1 = .error e ∧
        (ensureSqlConnection env now o s).2.2.filter Event.isSpConnect =
          [Event.poolConnect (AuthKind.spSecretAuth cid csec tid) false]) := by
  have hmode2 : (authModeOf env == "sp-secret") = false := hmode
  refine ⟨?_, ?_, ?_⟩
  · intro hdis
    rcases s with ⟨pool, tok, exp, rdy⟩
    rcases pool with _ | ⟨qid, qconn⟩
    · simp [ensureSqlConnection, hfresh, ensureReconnect, createSqlConfig,
        hcid, hcsec, htid, hacq, hprim, hdis, hmode2, Event.isSpConnect]
    · rcases qconn <;>
        simp [ensureSqlConnection, hfresh, ensureReconnect, createSqlConfig,
          hcid, hcsec, htid, hacq, hprim, hdis, hmode2, Event.isSpConnect]
  · intro hdis pid hfb
    rcases s with ⟨pool, tok, exp, rdy⟩
    rcases pool with _ | ⟨qid, qconn⟩
    · simp [ensureSqlConnection, hfresh, ensureReconnect, createSqlConfig,
        hcid, hcsec, htid, hacq, hprim, hdis, hfb, hmode2, usingSecretPrimary,
        markReady_eq, Event.isSpConnect]
    · rcases qconn <;>
        simp [ensureSqlConnection, hfresh, ensureReconnect, createSqlConfig,
          hcid, hcsec, htid, hacq, hprim, hdis, hfb, hmode2, usingSecretPrimary,
          markReady_eq, Event.isSpConnect]
  · intro hdis e2 hfb
    rcases s with ⟨pool, tok, exp, rdy⟩
    rcases pool with _ | ⟨qid, qconn⟩
    · simp [ensureSqlConnection, hfresh, ensureReconnect, createSqlConfig,
        hcid, hcsec, htid, hacq, hprim, hdis, hfb, hmode2, usingSecretPrimary,
        Event.isSpConnect]
    · rcases qconn <;>
        simp [ensureSqlConnection, hfresh, ensureReconnect, createSqlConfig,
          hcid, hcsec, htid, hacq, hprim, hdis, hfb, hmode2, usingSecretPrimary,
          Event.isSpConnect]

/-- Witness: C4 applied with a failing primary and, in turn, a succeeding
fallback, a failing fallback, and fallback disabled. -/
theorem C4_single_fallback_witness :
    ((ensureSqlConnection specimenEnv 0 failPrimaryOracle nearExpiryState).1
        = .ok () ∧
     (ensureSqlConnection specimenEnv 0 failBothOracle nearExpiryState).1
        = .error (SqlErr.connectError "primary")) ∧
    (ensureSqlConnection { specimenEnv with disableAadFallback := true } 0
        failBothOracle nearExpiryState).1 = .error (SqlErr.connectError "primary") :=
  ⟨⟨((C4_single_fallback specimenEnv 0 failPrimaryOracle nearExpiryState
        "cid" "sec" "tid" ⟨"newtok", some 900000⟩ (SqlErr.connectError "primary")
        (by decide) (by decide) (by decide) (by decide) (by decide) rfl rfl).2.1
        rfl 9 rfl).1,
    ((C4_single_fallback specimenEnv 0 failBothOracle nearExpiryState
        "cid" "sec" "tid" ⟨"newtok", some 900000⟩ (SqlErr.connectError "primary")
        (by decide) (by decide) (by decide) (by decide) (by decide) rfl rfl).2.2
        rfl (SqlErr.connectError "fallback") rfl).1⟩,
   ((C4_single_fallback { specimenEnv with disableAadFallback := true } 0
        failBothOracle nearExpiryState
        "cid" "sec" "tid" ⟨"newtok", some 900000⟩ (SqlErr.connectError "primary")
        (by decide) (by decide) (by decide) (by decide) (by decide) rfl rfl).1
        rfl).1⟩

/-- C5 (counterexample): the claim that with `preferredAuthMode =
service-principal-secret` the reconnect path does not acquire a token is
false at a concrete input: with `PREFERRED_SQL_AUTH=sp-secret` and a stale
state, `createSqlConfig` still calls the Credential Provider — the trace
records one token acquisition, not zero. -/
theorem C5_counterexample :
    usingSecretPrimary specimenEnvSP = true ∧
    tokenFresh nearExpiryState 0 = false ∧
    (ensureSqlConnection specimenEnvSP 0 okOracle nearExpiryState).2.2.count
      Event.tokenAcquire = 1 := by
  decide

/-- C5 (amended): when `preferredAuthMode` is `service-principal-secret`
(credentials present), the reconnect path STILL acquires a token from the
Credential Provider — the trace always contains `tokenAcquire` — and the
acquired token is merely cached, never used as the connection credential:
no connect attempt carries access-token authentication. -/
theorem C5_amended_token_still_acquired (env : Env) (now : Nat)
    (o : ConnOracle) (s : ConnState) (cid csec tid : String)
    (hfresh : tokenFresh s now = false)
    (hcid : envStr env.azureClientId = some cid)
    (hcsec : envStr env.azureClientSecret = some csec)
    (htid : envStr env.azureTenantId = some tid)
    (hmode : usingSecretPrimary env = true) :
    Event.tokenAcquire ∈ (ensureSqlConnection env now o s).2.2 ∧
    ∀ tokv okv, Event.poolConnect (AuthKind.accessTokenAuth tokv) okv ∉
      (ensureSqlConnection env now o s).2.2 := by
  have hmode2 : (authModeOf env == "sp-secret") = true := hmode
  rcases s with ⟨pool, tok, exp, rdy⟩
  rcases pool with _ | ⟨qid, qconn⟩
  · cases hacq : o.acquire <;> cases hprim : o.primary <;>
      cases hd : env.disableAadFallback <;>
      simp [ensureSqlConnection, hfresh, ensureReconnect, createSqlConfig,
        hcid, hcsec, htid, hacq, hprim, hd, hmode, hmode2, markReady_eq]
  · cases qconn <;> cases hacq : o.acquire <;> cases hprim : o.primary <;>
      cases hd : env.disableAadFallback <;>
      simp [ensureSqlConnection, hfresh, ensureReconnect, createSqlConfig,
        hcid, hcsec, htid, hacq, hprim, hd, hmode, hmode2, markReady_eq]

/-- Witness: the amended C5 theorem at the `sp-secret` environment. -/
theorem C5_amended_token_still_acquired_witness :
    Event.tokenAcquire ∈
      (ensureSqlConnection specimenEnvSP 0 okOracle nearExpiryState).2.2 :=
  (C5_amended_token_still_acquired specimenEnvSP 0 okOracle nearExpiryState
    "cid" "sec" "tid" (by decide) (by decide) (by decide) (by decide)
    (by decide)).1

/-- `ensureSqlConnection` never resets the readiness latch. -/
theorem ensure_ready_monotone (env : Env) (now : Nat) (o : ConnOracle)
    (s : ConnState) (h : s.firstSuccessfulDbCheck = true) :
    (ensureSqlConnection env now o s).2.1.firstSuccessfulDbCheck = true := by
  rcases s with ⟨pool, tok, exp, rdy⟩
  simp only at h
  subst h
  cases hfr : tokenFresh ⟨pool, tok, exp, true⟩ now with
  | true => simp [ensureSqlConnection, hfr]
  | false =>
    cases hc1 : envStr env.azureClientId with
    | none =>
      simp [ensureSqlConnection, hfr, ensureReconnect, createSqlConfig, hc1]
    | some cid =>
      cases hc2 : envStr env.azureClientSecret with
      | none =>
        simp [ensureSqlConnection, hfr, ensureReconnect, createSqlConfig,
          hc1, hc2]
      | some csec =>
        cases hc3 : envStr env.azureTenantId with
        | none =>
          simp [ensureSqlConnection, hfr, ensureReconnect, createSqlConfig,
            hc1, hc2, hc3]
        | some tid =>
          cases hacq : o.acquire with
          | error e =>
            simp [ensureSqlConnection, hfr, ensureReconnect, createSqlConfig,
              hc1, hc2, hc3, hacq]
          | ok tr =>
            rcases pool with _ | ⟨qid, qconn⟩
            · cases hprim : o.primary <;> cases hd : env.disableAadFallback <;>
                cases husp : usingSecretPrimary env <;>
                cases hfb : o.fallback <;>
                simp [ensureSqlConnection, hfr, ensureReconnect,
                  createSqlConfig, hc1, hc2, hc3, hacq, hprim, hd, husp, hfb,
                  markReady_eq]
            · cases qconn <;> cases hprim : o.primary <;>
                cases hd : env.disableAadFallback <;>
                cases husp : usingSecretPrimary env <;>
                cases hfb : o.fallback <;>
                simp [ensureSqlConnection, hfr, ensureReconnect,
                  createSqlConfig, hc1, hc2, hc3, hacq, hprim, hd, husp, hfb,
                  markReady_eq]

/-- A successful pass through the reconnect path always sets the latch. -/
theorem ensure_ok_sets_ready (env : Env) (now : Nat) (o : ConnOracle)
    (s : ConnState) (hfr : tokenFresh s now = false)
    (hok : (ensureSqlConnection env now o s).1 = .ok ()) :
    (ensureSqlConnection env now o s).2.1.firstSuccessfulDbCheck = true := by
  rcases s with ⟨pool, tok, exp, rdy⟩
  cases hc1 : envStr env.azureClientId with
  | none =>
    simp [ensureSqlConnection, hfr, ensureReconnect, createSqlConfig, hc1]
      at hok
  | some cid =>
    cases hc2 : envStr env.azureClientSecret with
    | none =>
      simp [ensureSqlConnection, hfr, ensureReconnect, createSqlConfig,
        hc1, hc2] at hok
    | some csec =>
      cases hc3 : envStr env.azureTenantId with
      | none =>
        simp [ensureSqlConnection, hfr, ensureReconnect, createSqlConfig,
          hc1, hc2, hc3] at hok
      | some tid =>
        cases hacq : o.acquire with
        | error e =>
          simp [ensureSqlConnection, hfr, ensureReconnect, createSqlConfig,
            hc1, hc2, hc3, hacq] at hok
        | ok tr =>
          rcases pool with _ | ⟨qid, qconn⟩
          · cases hprim : o.primary <;> cases hd : env.disableAadFallback <;>
              cases husp : usingSecretPrimary env <;>
              cases hfb : o.fallback <;>
              simp [ensureSqlConnection, hfr, ensureReconnect,
                createSqlConfig, hc1, hc2, hc3, hacq, hprim, hd, husp, hfb,
                markReady_eq] at hok ⊢
          · cases qconn <;> cases hprim : o.primary <;>
              cases hd : env.disableAadFallback <;>
              cases husp : usingSecretPrimary env <;>
              cases hfb : o.fallback <;>
              simp [ensureSqlConnection, hfr, ensureReconnect,
                createSqlConfig, hc1, hc2, hc3, hacq, hprim, hd, husp, hfb,
                markReady_eq] at hok ⊢

/-- C6: the readiness flag is a one-way latch feeding `GET /ready`.
`ensureSqlConnection` preserves a set flag under every oracle (later
failed attempts never reset it), a successful reconnect sets it, and the
`/ready` endpoint (unauthenticated, before the API-key gate) answers 503
with body ready=false / status "starting" while the flag is unset, and 200
with ready=true / status "ready" once set. -/
theorem C6_readiness_one_way (env : Env) (now : Nat) (o : ConnOracle)
    (s : ConnState) (ensureOk : Bool) (a xk : Option String) :
    (s.firstSuccessfulDbCheck = true →
      (ensureSqlConnection env now o s).2.1.firstSuccessfulDbCheck = true) ∧
    (tokenFresh s now = false → (ensureSqlConnection env now o s).1 = .ok () →
      (ensureSqlConnection env now o s).2.1.firstSuccessfulDbCheck = true) ∧
    handleHttp env false ensureOk ⟨"/ready", "GET", a, xk, none⟩ =
      (⟨503, RespBody.readyStatus false⟩, ⟨false, none⟩) ∧
    handleHttp env true ensureOk ⟨"/ready", "GET", a, xk, none⟩ =
      (⟨200, RespBody.readyStatus true⟩, ⟨false, none⟩) ∧
    (RespBody.readyStatus false).readyFlag = some false ∧
    (RespBody.readyStatus false).statusText = some "starting" ∧
    (RespBody.readyStatus true).readyFlag = some true ∧
    (RespBody.readyStatus true).statusText = some "ready" := by
  refine ⟨ensure_ready_monotone env now o s,
    ensure_ok_sets_ready env now o s, ?_, ?_, rfl, rfl, rfl, rfl⟩ <;>
    simp [handleHttp]

/-- Witness: C6 at concrete states — a set flag survives a failing
reconnect, a successful reconnect from the initial state sets the flag,
and both `/ready` responses. -/
theorem C6_readiness_one_way_witness :
    (ensureSqlConnection specimenEnv 0 failBothOracle nearExpiryState).2.1.firstSuccessfulDbCheck
      = true ∧
    (ensureSqlConnection specimenEnv 0 okOracle emptyState).2.1.firstSuccessfulDbCheck
      = true ∧
    handleHttp specimenEnv false true ⟨"/ready", "GET", none, none, none⟩ =
      (⟨503, RespBody.readyStatus false⟩, ⟨false, none⟩) :=
  ⟨(C6_readiness_one_way specimenEnv 0 failBothOracle nearExpiryState true
      none none).1 rfl,
   (C6_readiness_one_way specimenEnv 0 okOracle emptyState true
      none none).2.1 (by decide) (by decide),
   (C6_readiness_one_way specimenEnv 0 okOracle emptyState true
      none none).2.2.1⟩

/-- C7: unknown tool names never touch the connection. For every name
outside the line-RPC switch, `callTool` returns the error-flagged
Unknown-tool envelope with `ensureSqlConnection` not invoked and no tool
body run; for every name outside the HTTP bridge's mode-selected `toolMap`
(with the API-key gate disabled so the request reaches dispatch),
`POST /call` returns 404 with the Unknown-tool error body, again without
invoking `ensureSqlConnection` or any tool body. -/
theorem C7_unknown_tool_no_connection (env : Env) (name : String)
    (args : Option CallArgs) (ensureOk ready : Bool) (b : Option CallArgs)
    (hstdio : ∀ t ∈ stdioSwitch, toolName t ≠ name)
    (hhttp : ∀ t ∈ listTools env, toolName t ≠ name)
    (hkeys : parseApiKeys env = [])
    (hne : name ≠ "") :
    callToolStdio ensureOk name args = ⟨true, false, none⟩ ∧
    handleHttp env ready ensureOk
        ⟨"/call", "POST", none, none, some ⟨some name, b⟩⟩
      = (⟨404, RespBody.unknownTool name⟩, ⟨false, none⟩) := by
  have hfind : stdioLookup name = none := by
    unfold stdioLookup
    rw [List.find?_eq_none]
    intro t ht
    simp [hstdio t ht]
  have hfind2 : (listTools env).find? (fun t => toolName t == name) = none := by
    rw [List.find?_eq_none]
    intro t ht
    simp [hhttp t ht]
  constructor
  · simp [callToolStdio, hfind]
  · simp [handleHttp, hkeys, hfind2, hne]

/-- Witness: C7 at the name `no_such_tool`. -/
theorem C7_unknown_tool_no_connection_witness :
    callToolStdio true "no_such_tool" none = ⟨true, false, none⟩ ∧
    handleHttp specimenEnv false true
        ⟨"/call", "POST", none, none, some ⟨some "no_such_tool", none⟩⟩
      = (⟨404, RespBody.unknownTool "no_such_tool"⟩, ⟨false, none⟩) :=
  C7_unknown_tool_no_connection specimenEnv "no_such_tool" none true false
    none (by decide) (by decide) (by decide) (by decide)

/-- C8: the HTTP API-key gate. `/health` answers 200 regardless of key
configuration and headers (it precedes the gate); with a nonempty key set,
`/tools` without credentials answers 401 with the `Unauthorized` error
body; any non-empty key of the configured set is accepted, presented
either as `Authorization: Bearer <key>` or as `X-API-Key: <key>`; with no
key configured the gate is disabled and `/tools` answers 200 without
credentials. -/
theorem C8_api_key_gate (env : Env) (ready ensureOk : Bool)
    (a xk : Option String) (k : String) :
    handleHttp env ready ensureOk ⟨"/health", "GET", a, xk, none⟩
      = (⟨200, RespBody.health⟩, ⟨false, none⟩) ∧
    (parseApiKeys env ≠ [] →
      handleHttp env ready ensureOk ⟨"/tools", "GET", none, none, none⟩
        = (⟨401, RespBody.unauthorizedBody⟩, ⟨false, none⟩) ∧
      RespBody.unauthorizedBody.errorText = some "Unauthorized") ∧
    (k ∈ parseApiKeys env → k ≠ "" →
      handleHttp env ready ensureOk
          ⟨"/tools", "GET", some ("Bearer " ++ k), none, none⟩
        = (⟨200, RespBody.toolList ((listTools env).map toolName)⟩,
           ⟨false, none⟩) ∧
      handleHttp env ready ensureOk ⟨"/tools", "GET", none, some k, none⟩
        = (⟨200, RespBody.toolList ((listTools env).map toolName)⟩,
           ⟨false, none⟩)) ∧
    (parseApiKeys env = [] →
      handleHttp env ready ensureOk ⟨"/tools", "GET", none, none, none⟩
        = (⟨200, RespBody.toolList ((listTools env).map toolName)⟩,
           ⟨false, none⟩)) := by
  refine ⟨?_, ?_, ?_, ?_⟩
  · simp [handleHttp]
  · intro hks
    have hemp : (parseApiKeys env).isEmpty = false := by
      simp [List.isEmpty_iff, hks]
    refine ⟨?_, rfl⟩
    simp [handleHttp, providedKey, hemp]
  · intro hk hne
    have htrim : trimString k = k := parseApiKeys_trimmed env k hk
    constructor
    · have hprov := providedKey_bearer "/tools" "GET" k none none
      simp [handleHttp, hprov, htrim, hne, hk]
    · simp [handleHttp, providedKey, htrim, hne, hk]
  · intro hk0
    simp [handleHttp, hk0]

/-- Witness: C8 with two configured keys and with none. -/
theorem C8_api_key_gate_witness :
    handleHttp specimenEnvKeys false true ⟨"/tools", "GET", none, none, none⟩
      = (⟨401, RespBody.unauthorizedBody⟩, ⟨false, none⟩) ∧
    handleHttp specimenEnvKeys false true
        ⟨"/tools", "GET", some ("Bearer " ++ "k2"), none, none⟩
      = (⟨200, RespBody.toolList ((listTools specimenEnvKeys).map toolName)⟩,
         ⟨false, none⟩) ∧
    handleHttp specimenEnvKeys false true ⟨"/tools", "GET", none, some "k1", none⟩
      = (⟨200, RespBody.toolList ((listTools specimenEnvKeys).map toolName)⟩,
         ⟨false, none⟩) ∧
    handleHttp specimenEnv false true ⟨"/tools", "GET", none, none, none⟩
      = (⟨200, RespBody.toolList ((listTools specimenEnv).map toolName)⟩,
         ⟨false, none⟩) :=
  ⟨((C8_api_key_gate specimenEnvKeys false true none none "k2").2.1
      (by decide)).1,
   ((C8_api_key_gate specimenEnvKeys false true none none "k2").2.2.1
      (by decide) (by decide)).1,
   ((C8_api_key_gate specimenEnvKeys false true none none "k1").2.2.1
      (by decide) (by decide)).2,
   (C8_api_key_gate specimenEnv false true none none "x").2.2.2 (by decide)⟩

/-- C9: the prior pool is closed before any new pool is opened. Whenever
the reconnect path runs from a state whose stored pool is connected and
the token acquisition succeeds, the event trace opens with the token
acquisition followed immediately by the close of the stored pool, and
every later event is a pool-connect attempt — so the close of the old
pool precedes every open of a new one, and the single stored
`globalSqlPool` reference is only replaced afterwards. -/
theorem C9_close_before_open (env : Env) (now : Nat) (o : ConnOracle)
    (s : ConnState) (p : PoolHandle) (cid csec tid : String)
    (tr : TokenResult)
    (hfresh : tokenFresh s now = false)
    (hp : s.globalSqlPool = some p) (hpc : p.connected = true)
    (hcid : envStr env.azureClientId = some cid)
    (hcsec : envStr env.azureClientSecret = some csec)
    (htid : envStr env.azureTenantId = some tid)
    (hacq : o.acquire = .ok tr) :
    (ensureSqlConnection env now o s).2.2.take 2
      = [Event.tokenAcquire, Event.poolClose p.id] ∧
    ((ensureSqlConnection env now o s).2.2.drop 2).all Event.isConnect
      = true := by
  rcases s with ⟨pool, tok, exp, rdy⟩
  simp only at hp
  subst hp
  rcases p with ⟨pid0, pc⟩
  simp only at hpc
  subst hpc
  cases hprim : o.primary <;> cases hd : env.disableAadFallback <;>
    cases husp : usingSecretPrimary env <;> cases hfb : o.fallback <;>
    simp [ensureSqlConnection, hfresh, ensureReconnect, createSqlConfig,
      hcid, hcsec, htid, hacq, hprim, hd, husp, hfb, markReady_eq,
      Event.isConnect]

/-- Witness: C9 at a connected near-expiry state. -/
theorem C9_close_before_open_witness :
    (ensureSqlConnection specimenEnv 0 okOracle nearExpiryState).2.2.take 2
      = [Event.tokenAcquire, Event.poolClose 1] :=
  (C9_close_before_open specimenEnv 0 okOracle nearExpiryState ⟨1, true⟩
    "cid" "sec" "tid" ⟨"newtok", some 900000⟩ (by decide) rfl rfl
    (by decide) (by decide) (by decide) rfl).1

/-- C10: the token cache is not rolled back on connect failure. When the
reconnect path acquires a token but the primary connect fails and no
fallback pool is obtained (fallback disabled, or the fallback attempt also
failing), the call propagates the error, yet the cached
`globalAccessToken`/`globalTokenExpiresOn` have already been overwritten
with the newly acquired values — the pre-call cache is not restored. -/
theorem C10_token_cache_overwritten (env : Env) (now : Nat) (o : ConnOracle)
    (s : ConnState) (cid csec tid : String) (tr : TokenResult) (e : SqlErr)
    (hfresh : tokenFresh s now = false)
    (hcid : envStr env.azureClientId = some cid)
    (hcsec : envStr env.azureClientSecret = some csec)
    (htid : envStr env.azureTenantId = some tid)
    (hacq : o.acquire = .ok tr)
    (hprim : o.primary = .error e)
    (husp : usingSecretPrimary env = false) :
    (env.disableAadFallback = true →
      (ensureSqlConnection env now o s).1 = .error e ∧
      (ensureSqlConnection env now o s).2.1.globalAccessToken = some tr.token ∧
      (ensureSqlConnection env now o s).2.1.globalTokenExpiresOn =
        some (tr.expiresOnTimestamp.getD (now + 30 * 60 * 1000))) ∧
    (∀ e2, o.fallback = .error e2 →
      (ensureSqlConnection env now o s).1 = .error e ∧
      (ensureSqlConnection env now o s).2.1.globalAccessToken = some tr.token ∧
      (ensureSqlConnection env now o s).2.1.globalTokenExpiresOn =
        some (tr.expiresOnTimestamp.getD (now + 30 * 60 * 1000))) := by
  constructor
  · intro hd
    rcases s with ⟨pool, tok, exp, rdy⟩
    rcases pool with _ | ⟨qid, qconn⟩
    · simp [ensureSqlConnection, hfresh, ensureReconnect, createSqlConfig,
        hcid, hcsec, htid, hacq, hprim, hd]
    · cases qconn <;>
        simp [ensureSqlConnection, hfresh, ensureReconnect, createSqlConfig,
          hcid, hcsec, htid, hacq, hprim, hd]
  · intro e2 hfb
    rcases s with ⟨pool, tok, exp, rdy⟩
    rcases pool with _ | ⟨qid, qconn⟩
    · cases hd : env.disableAadFallback <;>
        simp [ensureSqlConnection, hfresh, ensureReconnect, createSqlConfig,
          hcid, hcsec, htid, hacq, hprim, hd, husp, hfb]
    · cases qconn <;> cases hd : env.disableAadFallback <;>
        simp [ensureSqlConnection, hfresh, ensureReconnect, createSqlConfig,
          hcid, hcsec, htid, hacq, hprim, hd, husp, hfb]

/-- Witness: C10 with both connect attempts failing; the cache ends up
holding the freshly acquired token, which differs from the pre-call one. -/
theorem C10_token_cache_overwritten_witness :
    (ensureSqlConnection specimenEnv 0 failBothOracle nearExpiryState).1
      = .error (SqlErr.connectError "primary") ∧
    (ensureSqlConnection specimenEnv 0 failBothOracle nearExpiryState).2.1.globalAccessToken
      = some "newtok" ∧
    nearExpiryState.globalAccessToken = some "tok" ∧
    some "newtok" ≠ some "tok" :=
  have h := (C10_token_cache_overwritten specimenEnv 0 failBothOracle
    nearExpiryState "cid" "sec" "tid" ⟨"newtok", some 900000⟩
    (SqlErr.connectError "primary") (by decide) (by decide) (by decide)
    (by decide) rfl rfl (by decide)).2 (SqlErr.connectError "fallback") rfl
  ⟨h.1, h.2.1, rfl, by decide⟩

end Mssql
